import Mathlib

/-!
Shallow embedding of `src/PDF_image_extract.py` (the PDF image extraction
script).  Byte sequences are modelled as `List Nat` (each entry a byte
value), Python's `struct.pack` fields as explicit little-endian byte
encodings with the signed-range checks `struct` performs, and the page /
object loops of `extract_images` as explicit recursion over lists.
-/

namespace PDFExtract

/-- Little-endian byte encoding: `leBytes n v` is the `n`-byte
little-endian encoding of `v` (each byte `< 256`), as produced for an
in-range value by `struct.pack` with a little-endian format. -/
def leBytes : Nat → Nat → List Nat
  | 0, _ => []
  | n + 1, v => v % 256 :: leBytes n (v / 256)

/-- Packing one `h` (signed 16-bit) field of `struct.pack('<...h...')` for a
nonnegative value: succeeds exactly when the value fits the signed range,
otherwise `struct.error`. -/
def pack_h (v : Nat) : Option (List Nat) :=
  if v < 32768 then some (leBytes 2 v) else none

/-- Packing one `l` (signed 32-bit) field of `struct.pack('<...l...')` for a
nonnegative value: succeeds exactly when the value fits the signed range,
otherwise `struct.error`. -/
def pack_l (v : Nat) : Option (List Nat) :=
  if v < 2147483648 then some (leBytes 4 v) else none

/-- One IFD directory entry, packed as `hhll` in the format string
`'<' + '2s' + 'h' + 'l' + 'h' + 'hhll' * 8 + 'h'` of
`tiff_header_for_CCITT`: tag, type, count, value. -/
def packEntry (tag ty cnt val : Nat) : Option (List Nat) := do
  let a ← pack_h tag
  let b ← pack_h ty
  let c ← pack_l cnt
  let d ← pack_l val
  pure (a ++ b ++ c ++ d)

/-- `struct.calcsize` of the header format string
`'<' + '2s' + 'h' + 'l' + 'h' + 'hhll' * 8 + 'h'`:
2 (marker) + 2 (version) + 4 (IFD offset) + 2 (entry count)
+ 8 entries of 12 bytes + 2 (terminator). -/
def tiffHeaderSize : Nat := 2 + 2 + 4 + 2 + 8 * 12 + 2

/-- The function `tiff_header_for_CCITT(width, height, img_size,
CCITT_group)` of the source: `struct.pack` of the marker `b'II'` (bytes
73, 73), version 42, IFD offset 8, entry count 8, the eight directory
entries, and the terminating 0.  `none` models `struct.error` (a field
value out of the signed range). -/
def tiff_header_for_CCITT (width height img_size CCITT_group : Nat) :
    Option (List Nat) := do
  let v ← pack_h 42
  let o ← pack_l 8
  let n ← pack_h 8
  let e1 ← packEntry 256 4 1 width
  let e2 ← packEntry 257 4 1 height
  let e3 ← packEntry 258 3 1 1
  let e4 ← packEntry 259 3 1 CCITT_group
  let e5 ← packEntry 262 3 1 0
  let e6 ← packEntry 273 4 1 tiffHeaderSize
  let e7 ← packEntry 278 4 1 height
  let e8 ← packEntry 279 4 1 img_size
  let z ← pack_h 0
  pure ([73, 73] ++ v ++ o ++ n ++ e1 ++ e2 ++ e3 ++ e4 ++ e5 ++ e6 ++
    e7 ++ e8 ++ z)

/-- The raw 12 bytes of one in-range directory entry. -/
def entryBytes (tag ty cnt val : Nat) : List Nat :=
  leBytes 2 tag ++ leBytes 2 ty ++ leBytes 4 cnt ++ leBytes 4 val

/-- The byte layout `tiff_header_for_CCITT` produces when every field is in
range. -/
def headerBytes (width height img_size CCITT_group : Nat) : List Nat :=
  [73, 73] ++ leBytes 2 42 ++ leBytes 4 8 ++ leBytes 2 8 ++
  entryBytes 256 4 1 width ++ entryBytes 257 4 1 height ++
  entryBytes 258 3 1 1 ++ entryBytes 259 3 1 CCITT_group ++
  entryBytes 262 3 1 0 ++ entryBytes 273 4 1 tiffHeaderSize ++
  entryBytes 278 4 1 height ++ entryBytes 279 4 1 img_size ++ leBytes 2 0

@[simp] lemma leBytes_length (n v : Nat) : (leBytes n v).length = n := by
  induction n generalizing v with
  | zero => rfl
  | succ k ih => simp [leBytes, ih]

@[simp] lemma entryBytes_length (tag ty cnt val : Nat) :
    (entryBytes tag ty cnt val).length = 12 := by
  simp [entryBytes]

lemma headerBytes_length (w h s g : Nat) :
    (headerBytes w h s g).length = tiffHeaderSize := by
  simp [headerBytes, tiffHeaderSize]

lemma tiff_header_eq_headerBytes (w h s g : Nat) (hw : w < 2147483648)
    (hh : h < 2147483648) (hs : s < 2147483648) (hg : g < 2147483648) :
    tiff_header_for_CCITT w h s g = some (headerBytes w h s g) := by
  simp [tiff_header_for_CCITT, packEntry, pack_h, pack_l, hw, hh, hs, hg,
    headerBytes, entryBytes, tiffHeaderSize]

@[simp] lemma option_bind_const_none {α β : Type} (x : Option α) :
    (x.bind fun _ => (none : Option β)) = none := by
  cases x <;> rfl

lemma tiff_header_none_w (w h s g : Nat) (hw : ¬ w < 2147483648) :
    tiff_header_for_CCITT w h s g = none := by
  simp [tiff_header_for_CCITT, packEntry, pack_h, pack_l, hw]

lemma tiff_header_none_h (w h s g : Nat) (hh : ¬ h < 2147483648) :
    tiff_header_for_CCITT w h s g = none := by
  simp [tiff_header_for_CCITT, packEntry, pack_h, pack_l, hh]

lemma tiff_header_none_s (w h s g : Nat) (hs : ¬ s < 2147483648) :
    tiff_header_for_CCITT w h s g = none := by
  simp [tiff_header_for_CCITT, packEntry, pack_h, pack_l, hs]

lemma tiff_header_none_g (w h s g : Nat) (hg : ¬ g < 2147483648) :
    tiff_header_for_CCITT w h s g = none := by
  simp [tiff_header_for_CCITT, packEntry, pack_h, pack_l, hg]

lemma tiff_header_isSome_iff (w h s g : Nat) :
    (tiff_header_for_CCITT w h s g).isSome = true ↔
      (w < 2147483648 ∧ h < 2147483648 ∧ s < 2147483648 ∧ g < 2147483648) := by
  constructor
  · intro hsome
    refine ⟨?_, ?_, ?_, ?_⟩ <;> by_contra hneg
    · rw [tiff_header_none_w w h s g hneg] at hsome; exact absurd hsome (by simp)
    · rw [tiff_header_none_h w h s g hneg] at hsome; exact absurd hsome (by simp)
    · rw [tiff_header_none_s w h s g hneg] at hsome; exact absurd hsome (by simp)
    · rw [tiff_header_none_g w h s g hneg] at hsome; exact absurd hsome (by simp)
  · intro hrange
    rw [tiff_header_eq_headerBytes w h s g hrange.1 hrange.2.1
      hrange.2.2.1 hrange.2.2.2]
    rfl

lemma tiff_header_some_eq (w h s g : Nat) (hd : List Nat)
    (hsome : tiff_header_for_CCITT w h s g = some hd) :
    hd = headerBytes w h s g := by
  have hr := (tiff_header_isSome_iff w h s g).mp (by simp [hsome])
  have := tiff_header_eq_headerBytes w h s g hr.1 hr.2.1 hr.2.2.1 hr.2.2.2
  rw [this] at hsome
  exact (Option.some_inj.mp hsome).symm

lemma tiff_header_some_length (w h s g : Nat) (hd : List Nat)
    (hsome : tiff_header_for_CCITT w h s g = some hd) :
    hd.length = tiffHeaderSize := by
  rw [tiff_header_some_eq w h s g hd hsome]
  exact headerBytes_length w h s g

/-- A PDF color-space value as `extract_images` sees it: either a name
(`NameObject`, compared against strings such as `'/DeviceRGB'`), an
`/Indexed` array `[/Indexed base hival lookup]`, or an `/ICCBased` array
`[/ICCBased stream]` whose stream may or may not carry an `/Alternate`
color space. -/
inductive ColorSpace : Type where
  | csName : String → ColorSpace
  | indexedArr : ColorSpace → Nat → List Nat → ColorSpace
  | iccArr : Option ColorSpace → ColorSpace

/-- The `img_modes` dictionary of the source (line 38): PDF color-space
name to PIL mode; `none` models a `KeyError` on lookup. -/
def img_modes : String → Option String
  | "/DeviceRGB" => some "RGB"
  | "/DefaultRGB" => some "RGB"
  | "/DeviceCMYK" => some "CMYK"
  | "/DefaultCMYK" => some "CMYK"
  | "/DeviceGray" => some "L"
  | "/DefaultGray" => some "L"
  | "/Indexed" => some "P"
  | _ => none

/-- The exceptions the per-image code can raise, named after the spec's
error taxonomy.  `UnsupportedColorSpace` covers both the explicit
`IOError('color space non existent: ...')` of line 107 and the
`KeyError`/`TypeError` of the `img_modes[color_space]` lookup on line 110;
`MissingDecodeParams` is the `KeyError` on `['/DecodeParms']['/K']` (line
147); `InvalidDimensions` is `struct.error` from `struct.pack`;
`MalformedRasterData` is the raster-length failure of the `/FlateDecode`
branch; `NameErr` is the `NameError` of line 120 when `lookup` was never
bound. -/
inductive DecodeErr : Type where
  | UnsupportedColorSpace
  | MalformedRasterData
  | MissingDecodeParams
  | InvalidDimensions
  | NameErr
  deriving DecidableEq

/-- The two sequential "colorspace fixes" of lines 99-107: an `/Indexed`
array is replaced by the name `'/Indexed'` (the array's first element);
then, if the (possibly already rewritten) value is an `/ICCBased` array,
it is replaced by the stream's `/Alternate` when present, else
`IOError` is raised.  Note neither branch re-examines its own result:
the fixes are applied once each, in this order, not recursively. -/
def fixColorSpace (cs : ColorSpace) : Except DecodeErr ColorSpace :=
  match (match cs with
         | .indexedArr _ _ _ => ColorSpace.csName "/Indexed"
         | c => c) with
  | .iccArr (some alt) => .ok alt
  | .iccArr none => .error .UnsupportedColorSpace
  | c => .ok c

/-- The `mode = img_modes[color_space]` lookup of line 110: only a name
present in the dictionary succeeds; an array value (never rewritten to a
name by the fixes) or an unknown name raises. -/
def modeLookup : ColorSpace → Except DecodeErr String
  | .csName s =>
    match img_modes s with
    | some m => .ok m
    | none => .error .UnsupportedColorSpace
  | _ => .error .UnsupportedColorSpace

/-- Full color-space resolution as the source performs it: the two fixes
followed by the `img_modes` lookup. -/
def resolveMode (cs : ColorSpace) : Except DecodeErr String :=
  match fixColorSpace cs with
  | .error e => .error e
  | .ok fixed => modeLookup fixed

/-- One `/XObject` entry of a page's resource dictionary, with the fields
the source reads: `/Subtype`, `/Width`, `/Height`, `/ColorSpace`,
`/Filter`, the optional `/DecodeParms` `/K` value, the raw stream bytes
`._data`, and the filter-decoded bytes `.getData()` (inflation itself is
done by the external PDF library). -/
structure XObject : Type where
  subtype : String
  width : Nat
  height : Nat
  colorSpace : ColorSpace
  filter : String
  kParam : Option Int
  rawData : List Nat
  flateData : List Nat

/-- Bytes per pixel of a PIL raster mode, as used by `Image.frombytes`:
`RGB` is 3 samples, `CMYK` 4, `L` and `P` one. -/
def bytesPerPixel : String → Nat
  | "RGB" => 3
  | "CMYK" => 4
  | _ => 1

/-- What the script writes for one image: either a PIL-encoded raster
(`Image.frombytes(...).save(...)`, with the palette applied first in the
indexed case — PIL's PNG encoding is external, so the raster is kept
symbolic), or bytes written directly to the output file. -/
inductive Written : Type where
  | pilImage : String → Nat → Nat → List Nat → Option (List Nat) → Written
  | rawBytes : List Nat → Written
  deriving DecidableEq

/-- The per-image body of `extract_images` (lines 95-163): read the
dimensions and color space, apply the color-space fixes and the mode
lookup, then dispatch on `/Filter`.  `ok none` is the `else` branch
("unrecognized format": nothing written, loop continues); `error e` is an
uncaught exception.  The `/FlateDecode` raster-length precondition of
`Image.frombytes` (PIL, external) is modelled from the spec:
`MalformedRasterData` when the byte length differs from
width × height × bytes-per-pixel. -/
def processImage (obj : XObject) : Except DecodeErr (Option Written) :=
  match fixColorSpace obj.colorSpace with
  | .error e => .error e
  | .ok fixed =>
    match modeLookup fixed with
    | .error e => .error e
    | .ok mode =>
      if obj.filter = "/FlateDecode" then
        if obj.flateData.length = obj.width * obj.height * bytesPerPixel mode
        then
          match fixed with
          | .csName "/Indexed" =>
            match obj.colorSpace with
            | .indexedArr _ _ lookup =>
              .ok (some (.pilImage mode obj.width obj.height obj.flateData
                (some lookup)))
            | _ => .error .NameErr
          | _ =>
            .ok (some (.pilImage mode obj.width obj.height obj.flateData none))
        else .error .MalformedRasterData
      else if obj.filter = "/DCTDecode" then
        .ok (some (.rawBytes obj.rawData))
      else if obj.filter = "/JPXDecode" then
        .ok (some (.rawBytes obj.rawData))
      else if obj.filter = "/CCITTFaxDecode" then
        match obj.kParam with
        | none => .error .MissingDecodeParams
        | some K =>
          match tiff_header_for_CCITT obj.width obj.height obj.rawData.length
              (if K = -1 then 4 else 3) with
          | none => .error .InvalidDimensions
          | some hd => .ok (some (.rawBytes (hd ++ obj.rawData)))
      else .ok none

/-- Python's `'{:0Nd}'` zero-padding used in the filename format string:
pad the decimal representation to `w` digits with leading zeros (longer
numbers are kept whole). -/
def padZero (w n : Nat) : String :=
  (List.replicate (w - (toString n).length) (Char.ofNat 48)).asString
    ++ toString n

/-- The output filename of line 112:
`'{}page{:02}_{:04}.png'.format(filename_prefix, i+1, j)` with
`filename_prefix = pdf_name + '_IMG_'`; `pageIdx` is the 0-based page
index `i` and `j` the 1-based per-page image counter.  Every output,
whatever the filter, gets the `.png` suffix. -/
def imgName (stem : String) (pageIdx j : Nat) : String :=
  stem ++ "_IMG_" ++ "page" ++ padZero 2 (pageIdx + 1) ++ "_"
    ++ padZero 4 j ++ ".png"

/-- The extension of a filename, as the characters from the last dot on. -/
def fileExt (s : String) : List Char :=
  Char.ofNat 46 :: (s.data.reverse.takeWhile (fun c => c ≠ Char.ofNat 46)).reverse

/-- The `for obj in xObject` loop of lines 91-165 over one page: `j` is
the per-page image counter (starting at 1), incremented for every
`/Subtype` `/Image` entry, written-or-not; non-image entries are passed
over without touching `j`.  The result is the list of
(filename, written content) pairs in write order, together with the
uncaught exception, if any, that aborted the loop (files written before
the abort remain). -/
def processObjs (stem : String) (pageIdx : Nat) :
    List XObject → Nat → List (String × Written) × Option DecodeErr
  | [], _ => ([], none)
  | o :: rest, j =>
    if o.subtype = "/Image" then
      match processImage o with
      | .error e => ([], some e)
      | .ok none => processObjs stem pageIdx rest (j + 1)
      | .ok (some w) =>
        let r := processObjs stem pageIdx rest (j + 1)
        ((imgName stem pageIdx j, w) :: r.1, r.2)
    else processObjs stem pageIdx rest j

/-- The page loop of `extract_images` (lines 79-165): a page whose
resources carry no `/XObject` (`KeyError`, line 86) is skipped and the
loop continues; otherwise the page's objects are processed with `j`
reset to 1, and an uncaught exception aborts the remaining pages of the
document (`extract_images` itself raises). -/
def processDoc (stem : String) :
    List (Option (List XObject)) → Nat →
      List (String × Written) × Option DecodeErr
  | [], _ => ([], none)
  | none :: rest, i => processDoc stem rest (i + 1)
  | some objs :: rest, i =>
    match processObjs stem i objs 1 with
    | (outs, some e) => (outs, some e)
    | (outs, none) =>
      let r := processDoc stem rest (i + 1)
      (outs ++ r.1, r.2)

/-- The `for pdf in pdfs: extract_images(pdf)` loop of `__main__`
(lines 187-189): no handler surrounds the call, so an exception raised
while processing one document aborts the remaining documents. -/
def processAll :
    List (String × List (Option (List XObject))) →
      List (String × Written) × Option DecodeErr
  | [] => ([], none)
  | (stem, pages) :: rest =>
    match processDoc stem pages 0 with
    | (outs, some e) => (outs, some e)
    | (outs, none) =>
      let r := processAll rest
      (outs ++ r.1, r.2)

/-- A JPEG-filtered image object with a complete baseline JPEG payload
(SOI `FF D8` ... EOI `FF D9`). -/
def dctObj : XObject :=
  ⟨"/Image", 2, 1, .csName "/DeviceRGB", "/DCTDecode", none,
    [255, 216, 255, 217], []⟩

/-- An image whose color space is an `/ICCBased` array with no
`/Alternate` entry. -/
def iccNoAltObj : XObject :=
  ⟨"/Image", 2, 1, .iccArr none, "/DCTDecode", none, [1], []⟩

/-- An image with a filter none of the four branches recognizes. -/
def lzwObj : XObject :=
  ⟨"/Image", 2, 1, .csName "/DeviceGray", "/LZWDecode", none, [7], []⟩

/-- A JPEG-filtered image with a zero-length payload. -/
def emptyDctObj : XObject :=
  ⟨"/Image", 1, 1, .csName "/DeviceGray", "/DCTDecode", none, [], []⟩

/-- A JPEG2000-filtered image with a zero-length payload. -/
def emptyJpxObj : XObject :=
  ⟨"/Image", 1, 1, .csName "/DeviceGray", "/JPXDecode", none, [], []⟩

/-- The fax scenario of the spec: `K = -1`, 1700 × 2200, some raw scan
bytes. -/
def ccittObj : XObject :=
  ⟨"/Image", 1700, 2200, .csName "/DeviceGray", "/CCITTFaxDecode",
    some (-1), [9, 8, 7], []⟩

lemma processImage_passthrough (obj : XObject) (fixed : ColorSpace)
    (mode : String) (h1 : fixColorSpace obj.colorSpace = .ok fixed)
    (h2 : modeLookup fixed = .ok mode)
    (hf : obj.filter = "/DCTDecode" ∨ obj.filter = "/JPXDecode") :
    processImage obj = .ok (some (.rawBytes obj.rawData)) := by
  rcases hf with hf | hf <;> simp [processImage, h1, h2, hf]

lemma processImage_ccitt (obj : XObject) (fixed : ColorSpace)
    (mode : String) (K : Int) (hd : List Nat)
    (h1 : fixColorSpace obj.colorSpace = .ok fixed)
    (h2 : modeLookup fixed = .ok mode)
    (hf : obj.filter = "/CCITTFaxDecode")
    (hk : obj.kParam = some K)
    (hhd : tiff_header_for_CCITT obj.width obj.height obj.rawData.length
      (if K = -1 then 4 else 3) = some hd) :
    processImage obj = .ok (some (.rawBytes (hd ++ obj.rawData))) := by
  simp [processImage, h1, h2, hf, hk, hhd]

lemma passthrough_written (obj : XObject) (w : Written)
    (hf : obj.filter = "/DCTDecode" ∨ obj.filter = "/JPXDecode")
    (hw : processImage obj = .ok (some w)) :
    w = .rawBytes obj.rawData := by
  unfold processImage at hw
  split at hw
  · exact absurd hw (by simp)
  · split at hw
    · exact absurd hw (by simp)
    · rcases hf with hf | hf <;> rw [hf] at hw <;> simp at hw <;>
        exact hw.symm

lemma fileExt_of_png_suffix (s : String)
    (h : ∃ l, s.data = l ++ ['.', 'p', 'n', 'g']) :
    fileExt s = ['.', 'p', 'n', 'g'] := by
  obtain ⟨l, hl⟩ := h
  simp [fileExt, hl, List.takeWhile]

lemma imgName_data (stem : String) (pg j : Nat) :
    ∃ l, (imgName stem pg j).data = l ++ ['.', 'p', 'n', 'g'] := by
  refine ⟨(stem ++ "_IMG_" ++ "page" ++ padZero 2 (pg + 1) ++ "_"
    ++ padZero 4 j).data, ?_⟩
  simp [imgName, String.data_append]

/-- C1: for every width, height, byteCount and group within the
(signed 32-bit) capacity of the packed fields — out-of-range inputs are
the subject of C9 — `tiff_header_for_CCITT` returns the little-endian
header: marker `II` (bytes 73 73), version 42, offset 8 to the single
IFD, entry count 8, then eight 12-byte entries in strictly ascending tag
order 256, 257, 258, 259, 262, 273, 278, 279 encoding
ImageWidth = width, ImageLength = height, BitsPerSample = 1,
Compression = group, Threshholding = 0, StripOffsets = the total header
size `tiffHeaderSize` (which equals the byte length of the returned
header), RowsPerStrip = height, StripByteCounts = byteCount, followed by
the terminator 0. -/
theorem claim1_fax_header_structure (w h s g : Nat)
    (hw : w < 2147483648) (hh : h < 2147483648) (hs : s < 2147483648)
    (hg : g < 2147483648) :
    tiff_header_for_CCITT w h s g =
      some ([73, 73] ++ leBytes 2 42 ++ leBytes 4 8 ++ leBytes 2 8 ++
        entryBytes 256 4 1 w ++ entryBytes 257 4 1 h ++
        entryBytes 258 3 1 1 ++ entryBytes 259 3 1 g ++
        entryBytes 262 3 1 0 ++ entryBytes 273 4 1 tiffHeaderSize ++
        entryBytes 278 4 1 h ++ entryBytes 279 4 1 s ++ leBytes 2 0) ∧
    (∀ tag ty cnt val : Nat, (entryBytes tag ty cnt val).length = 12) ∧
    (headerBytes w h s g).length = tiffHeaderSize ∧
    List.Pairwise (· < ·) [256, 257, 258, 259, 262, 273, 278, 279] := by
  refine ⟨?_, fun tag ty cnt val => entryBytes_length tag ty cnt val,
    headerBytes_length w h s g, by decide⟩
  exact tiff_header_eq_headerBytes w h s g hw hh hs hg

/-- C1 witness: the spec's example `buildFaxHeader(100, 50, 200, 4)`
produces exactly the in-range header layout. -/
theorem claim1_witness :
    tiff_header_for_CCITT 100 50 200 4 = some (headerBytes 100 50 200 4) := by
  have hthm := claim1_fax_header_structure 100 50 200 4 (by norm_num)
    (by norm_num) (by norm_num) (by norm_num)
  exact hthm.1

/-- C9 counterexample: `2^31` fits an unsigned 32-bit field, yet
`tiff_header_for_CCITT` rejects it (the packed fields are signed
`l`/`h` fields, so `struct.pack` raises for values at or above `2^31`),
refuting the claim that every width fitting an unsigned 32-bit field
succeeds. -/
theorem claim9_counterexample :
    tiff_header_for_CCITT 2147483648 1 1 4 = none ∧
    (2147483648 : Nat) < 2 ^ 32 := by
  constructor
  · rfl
  · norm_num

/-- C9 (amended): the header fields are signed 32-bit, so synthesis
succeeds exactly when width, height, byteCount and group are each below
`2^31`; anything at or above `2^31` — including values that fit an
unsigned 32-bit field — is rejected (`struct.error`) rather than
truncated into the field. -/
theorem claim9_signed_range (w h s g : Nat) :
    (tiff_header_for_CCITT w h s g).isSome = true ↔
      (w < 2147483648 ∧ h < 2147483648 ∧ s < 2147483648 ∧
        g < 2147483648) :=
  tiff_header_isSome_iff w h s g

/-- C9 witness: in-range inputs succeed. -/
theorem claim9_witness :
    (tiff_header_for_CCITT 100 50 200 4).isSome = true :=
  (claim9_signed_range 100 50 200 4).mpr (by norm_num)

/-- C2 counterexample: for an `/ICCBased` space whose alternate is itself
an `/ICCBased` array over `/DeviceRGB`, the code fails with
`UnsupportedColorSpace` (the alternate is substituted once and then fed,
still an array, to the `img_modes` dictionary lookup), while resolving
the alternate alone succeeds with mode `RGB` — so the result does not
equal resolving the alternate, refuting the claimed recursion. -/
theorem claim2_counterexample :
    resolveMode (.iccArr (some (.iccArr (some (.csName "/DeviceRGB"))))) ≠
      resolveMode (.iccArr (some (.csName "/DeviceRGB"))) ∧
    resolveMode (.iccArr (some (.iccArr (some (.csName "/DeviceRGB"))))) =
      .error .UnsupportedColorSpace ∧
    resolveMode (.iccArr (some (.csName "/DeviceRGB"))) = .ok "RGB" :=
  ⟨fun hcontra => Except.noConfusion hcontra, rfl, rfl⟩

/-- C2 (amended): color-space resolution is single-pass, not recursive.
An `/Indexed` array resolves to the palette mode `P` regardless of its
base; an `/ICCBased` array whose alternate is present resolves to the
alternate's mode only when the alternate is a direct name — when the
alternate is itself an `/Indexed` or `/ICCBased` array, resolution fails
with `UnsupportedColorSpace`; and an `/ICCBased` array with no alternate
fails with `UnsupportedColorSpace`. -/
theorem claim2_single_pass :
    (∀ (base : ColorSpace) (hival : Nat) (lookup : List Nat),
      resolveMode (.indexedArr base hival lookup) = .ok "P") ∧
    (∀ s : String, resolveMode (.iccArr (some (.csName s))) =
      resolveMode (.csName s)) ∧
    (∀ alt : Option ColorSpace,
      resolveMode (.iccArr (some (.iccArr alt))) =
        .error .UnsupportedColorSpace) ∧
    (∀ (base : ColorSpace) (hival : Nat) (lookup : List Nat),
      resolveMode (.iccArr (some (.indexedArr base hival lookup))) =
        .error .UnsupportedColorSpace) ∧
    resolveMode (.iccArr none) = .error .UnsupportedColorSpace :=
  ⟨fun _ _ _ => rfl, fun _ => rfl, fun _ => rfl, fun _ _ _ => rfl, rfl⟩

/-- C3 counterexample: a page whose first image has an unresolvable
`/ICCBased` color space (no `/Alternate`) aborts with the uncaught
exception before the remaining image of the page is processed, and the
same abort propagates past the document's remaining pages — processing
does not continue to the next object. -/
theorem claim3_counterexample :
    processObjs "doc" 0 [iccNoAltObj, dctObj] 1 =
      ([], some DecodeErr.UnsupportedColorSpace) ∧
    processDoc "doc" [some [iccNoAltObj, dctObj], some [dctObj]] 0 =
      ([], some DecodeErr.UnsupportedColorSpace) :=
  ⟨rfl, rfl⟩

/-- C3 (amended): a decode failure is not scoped to the failing image:
the exception is uncaught, so it aborts the remaining images of the page
and the remaining pages of the document (and, in the `__main__` loop,
the remaining documents).  Only a page without an `/XObject` resource
(skipped via the caught `KeyError`) and images with an unrecognized
filter are non-fatal. -/
theorem claim3_error_aborts (stem : String) (i j : Nat) (o : XObject)
    (rest : List XObject) (restPages : List (Option (List XObject)))
    (e : DecodeErr) (hsub : o.subtype = "/Image")
    (herr : processImage o = .error e) :
    processObjs stem i (o :: rest) j = ([], some e) ∧
    processDoc stem (some (o :: rest) :: restPages) i = ([], some e) ∧
    processDoc stem (none :: restPages) i =
      processDoc stem restPages (i + 1) := by
  have h2 : processObjs stem i (o :: rest) 1 = ([], some e) := by
    simp [processObjs, hsub, herr]
  refine ⟨by simp [processObjs, hsub, herr], ?_, rfl⟩
  simp [processDoc, h2]

/-- C3 witness: the abort theorem instantiated on a concrete two-image
page followed by another page. -/
theorem claim3_witness :
    processObjs "doc" 0 (iccNoAltObj :: [dctObj]) 1 =
      ([], some DecodeErr.UnsupportedColorSpace) ∧
    processDoc "doc" (some (iccNoAltObj :: [dctObj]) :: [some [dctObj]]) 0 =
      ([], some DecodeErr.UnsupportedColorSpace) ∧
    processDoc "doc" (none :: [some [dctObj]]) 0 =
      processDoc "doc" [some [dctObj]] (0 + 1) :=
  claim3_error_aborts "doc" 0 1 iccNoAltObj [dctObj] [some [dctObj]]
    DecodeErr.UnsupportedColorSpace rfl rfl

/-- C4: passthrough fidelity — whenever the `/DCTDecode` or `/JPXDecode`
branch writes anything, the written bytes are exactly the object's raw
stream bytes `._data`, with no transformation. -/
theorem claim4_passthrough (obj : XObject) (w : Written)
    (hf : obj.filter = "/DCTDecode" ∨ obj.filter = "/JPXDecode")
    (hw : processImage obj = .ok (some w)) :
    w = .rawBytes obj.rawData :=
  passthrough_written obj w hf hw

/-- C4 witness: the concrete JPEG object is written verbatim. -/
theorem claim4_witness :
    processImage dctObj = .ok (some (.rawBytes [255, 216, 255, 217])) ∧
    Written.rawBytes [255, 216, 255, 217] = .rawBytes dctObj.rawData :=
  ⟨rfl, claim4_passthrough dctObj (.rawBytes [255, 216, 255, 217])
    (Or.inl rfl) rfl⟩

/-- C5: for a `/CCITTFaxDecode` image whose `/DecodeParms` carry `K`, the
fax group is `4` when `K = -1` and `3` otherwise, and that group value is
the one in the Compression directory entry (tag 259) of the synthesized
header, located right after the 46 header bytes that precede it. -/
theorem claim5_fax_group (obj : XObject) (fixed : ColorSpace)
    (mode : String) (K : Int)
    (h1 : fixColorSpace obj.colorSpace = .ok fixed)
    (h2 : modeLookup fixed = .ok mode)
    (hf : obj.filter = "/CCITTFaxDecode")
    (hk : obj.kParam = some K)
    (hw : obj.width < 2147483648) (hh : obj.height < 2147483648)
    (hs : obj.rawData.length < 2147483648) :
    ((K = -1 → (if K = -1 then (4 : Nat) else 3) = 4) ∧
      (K ≠ -1 → (if K = -1 then (4 : Nat) else 3) = 3)) ∧
    processImage obj = .ok (some (.rawBytes
      (headerBytes obj.width obj.height obj.rawData.length
        (if K = -1 then 4 else 3) ++ obj.rawData))) ∧
    ∃ pre post,
      headerBytes obj.width obj.height obj.rawData.length
          (if K = -1 then 4 else 3) =
        pre ++ entryBytes 259 3 1 (if K = -1 then 4 else 3) ++ post ∧
      pre.length = 46 := by
  have hg : (if K = -1 then (4 : Nat) else 3) < 2147483648 := by
    split <;> norm_num
  have hhd := tiff_header_eq_headerBytes obj.width obj.height
    obj.rawData.length (if K = -1 then 4 else 3) hw hh hs hg
  refine ⟨⟨fun hK => by simp [hK], fun hK => by simp [hK]⟩,
    processImage_ccitt obj fixed mode K _ h1 h2 hf hk hhd, ?_⟩
  refine ⟨[73, 73] ++ leBytes 2 42 ++ leBytes 4 8 ++ leBytes 2 8 ++
      entryBytes 256 4 1 obj.width ++ entryBytes 257 4 1 obj.height ++
      entryBytes 258 3 1 1,
    entryBytes 262 3 1 0 ++ entryBytes 273 4 1 tiffHeaderSize ++
      entryBytes 278 4 1 obj.height ++
      entryBytes 279 4 1 obj.rawData.length ++ leBytes 2 0, ?_, ?_⟩
  · simp [headerBytes, List.append_assoc]
  · simp

/-- C5 witness: the spec's fax scenario with `K = -1` yields group 4 and
the header-plus-data output. -/
theorem claim5_witness :
    (if (-1 : Int) = -1 then (4 : Nat) else 3) = 4 ∧
    processImage ccittObj = .ok (some (.rawBytes
      (headerBytes 1700 2200 3 4 ++ [9, 8, 7]))) := by
  have hthm := claim5_fax_group ccittObj (.csName "/DeviceGray") "L" (-1)
    rfl rfl rfl rfl (by norm_num [ccittObj]) (by norm_num [ccittObj])
    (by norm_num [ccittObj])
  exact ⟨hthm.1.1 rfl, by simpa [ccittObj] using hthm.2.1⟩

/-- C6: for a `/CCITTFaxDecode` image the output is exactly the
synthesized header concatenated with the raw bytes, so its length is the
header length plus the payload length, and the header length is the
constant 108 (`struct.calcsize` of the fixed format string), independent
of width, height, byteCount and group. -/
theorem claim6_concat (obj : XObject) (fixed : ColorSpace) (mode : String)
    (K : Int) (hd : List Nat)
    (h1 : fixColorSpace obj.colorSpace = .ok fixed)
    (h2 : modeLookup fixed = .ok mode)
    (hf : obj.filter = "/CCITTFaxDecode")
    (hk : obj.kParam = some K)
    (hhd : tiff_header_for_CCITT obj.width obj.height obj.rawData.length
      (if K = -1 then 4 else 3) = some hd) :
    processImage obj = .ok (some (.rawBytes (hd ++ obj.rawData))) ∧
    (hd ++ obj.rawData).length = hd.length + obj.rawData.length ∧
    hd.length = tiffHeaderSize ∧ tiffHeaderSize = 108 := by
  refine ⟨processImage_ccitt obj fixed mode K hd h1 h2 hf hk hhd,
    List.length_append hd obj.rawData, ?_, rfl⟩
  exact tiff_header_some_length _ _ _ _ hd hhd

/-- C6 witness: concat property on the concrete fax object — output
length is 108 + 3. -/
theorem claim6_witness :
    processImage ccittObj = .ok (some (.rawBytes
      (headerBytes 1700 2200 3 4 ++ ccittObj.rawData))) ∧
    (headerBytes 1700 2200 3 4).length = tiffHeaderSize ∧
    tiffHeaderSize = 108 := by
  have hthm := claim6_concat ccittObj (.csName "/DeviceGray") "L" (-1)
    (headerBytes 1700 2200 3 4) rfl rfl rfl rfl
    (tiff_header_eq_headerBytes 1700 2200 3 4 (by norm_num) (by norm_num)
      (by norm_num) (by norm_num))
  exact ⟨hthm.1, hthm.2.2.1, hthm.2.2.2⟩

/-- C7 counterexample: the concrete JPEG object is written byte-identical,
but under the filename `doc_IMG_page01_0001.png` — the hard-coded format
string gives every output the extension `.png`, never `.jpg`, refuting
the claimed `.jpg` extension. -/
theorem claim7_counterexample :
    processObjs "doc" 0 [dctObj] 1 =
      ([(imgName "doc" 0 1, .rawBytes [255, 216, 255, 217])], none) ∧
    imgName "doc" 0 1 = "doc_IMG_page01_0001.png" ∧
    fileExt (imgName "doc" 0 1) ≠ ['.', 'j', 'p', 'g'] :=
  ⟨rfl, rfl, by decide⟩

/-- C7 (amended): for a `/DCTDecode` image with a complete JPEG
bitstream, the written bytes are identical to the input, but the output
filename carries the extension `.png` (the one hard-coded extension used
for every filter), not `.jpg`. -/
theorem claim7_png_extension (stem : String) (pg j : Nat)
    (obj : XObject) (w : Written)
    (hf : obj.filter = "/DCTDecode")
    (hw : processImage obj = .ok (some w)) :
    w = .rawBytes obj.rawData ∧
    fileExt (imgName stem pg j) = ['.', 'p', 'n', 'g'] :=
  ⟨passthrough_written obj w (Or.inl hf) hw,
    fileExt_of_png_suffix _ (imgName_data stem pg j)⟩

/-- C7 witness: instantiated on the concrete JPEG object and a concrete
filename. -/
theorem claim7_witness :
    Written.rawBytes [255, 216, 255, 217] = .rawBytes dctObj.rawData ∧
    fileExt (imgName "doc" 0 1) = ['.', 'p', 'n', 'g'] :=
  claim7_png_extension "doc" 0 1 dctObj
    (.rawBytes [255, 216, 255, 217]) rfl rfl

/-- C8 counterexample: a `/DCTDecode` image with an empty payload is not
rejected — decode succeeds and an (empty) output is produced, refuting
the claimed `EmptyPayload` failure: the passthrough branches perform no
emptiness check at all. -/
theorem claim8_counterexample :
    processImage emptyDctObj = .ok (some (.rawBytes [])) := rfl

/-- C8 (amended): for `/DCTDecode` or `/JPXDecode` with an empty payload,
the empty byte sequence is written verbatim, producing a zero-length
output file; no `EmptyPayload` error exists in the code. -/
theorem claim8_empty_passthrough (obj : XObject) (fixed : ColorSpace)
    (mode : String)
    (h1 : fixColorSpace obj.colorSpace = .ok fixed)
    (h2 : modeLookup fixed = .ok mode)
    (hf : obj.filter = "/DCTDecode" ∨ obj.filter = "/JPXDecode")
    (he : obj.rawData = []) :
    processImage obj = .ok (some (.rawBytes [])) := by
  have hpass := processImage_passthrough obj fixed mode h1 h2 hf
  rw [hpass, he]

/-- C8 witness: the empty JPEG2000 object. -/
theorem claim8_witness :
    processImage emptyJpxObj = .ok (some (.rawBytes [])) :=
  claim8_empty_passthrough emptyJpxObj (.csName "/DeviceGray") "L"
    rfl rfl (Or.inr rfl) rfl

/-- C10: the per-page image counter `j` (used in the output filename) is
incremented for every `/Subtype` `/Image` object, including one whose
filter is unrecognized and which therefore produces no output file —
processing the rest of the page continues with `j + 1`, so the indices of
the files actually written can skip values. -/
theorem claim10_index_gap (stem : String) (i : Nat) (o : XObject)
    (rest : List XObject) (j : Nat)
    (hsub : o.subtype = "/Image")
    (hskip : processImage o = .ok none) :
    processObjs stem i (o :: rest) j = processObjs stem i rest (j + 1) := by
  simp [processObjs, hsub, hskip]

/-- C10 witness: a page with an unrecognized-filter image followed by a
JPEG: the only file written carries index 2 (name `..._0002.png`), leaving
a gap at index 1. -/
theorem claim10_witness :
    processObjs "doc" 0 (lzwObj :: [dctObj]) 1 =
      processObjs "doc" 0 [dctObj] (1 + 1) ∧
    processObjs "doc" 0 [lzwObj, dctObj] 1 =
      ([(imgName "doc" 0 2, .rawBytes [255, 216, 255, 217])], none) ∧
    imgName "doc" 0 2 = "doc_IMG_page01_0002.png" :=
  ⟨claim10_index_gap "doc" 0 lzwObj [dctObj] 1 rfl rfl, rfl, rfl⟩

end PDFExtract
